import Mathlib

/-!
Verification of the tool-invocation audit layer and the local vision-model
registry of the OPENAI-Agent repository, as a shallow embedding in Lean 4.

The embedding follows the Python source:
* `record_tool_call`, `RecordableTool._run` from `langchain_agent.py`;
* `ModelConfigManager` from `tools/model_manager.py`;
* `LocalModelManager.detect_objects`, `_get_best_yolo_model` from
  `tools/local_models.py`.

Machine floats are modelled as exact rationals; Python dictionaries as
association lists (keys unique in every state the program builds, since
Python dictionaries cannot repeat a key); raised exceptions as an explicit
outcome value that the caller matches on.
-/

/-- Value recorded as the `input` field of a tool-call record.  Python's
`_run` stores the keyword mapping when present, else the first positional
argument, else an empty mapping; the failure branch stores the keyword
mapping when present, else the whole positional tuple. -/
inductive ToolInput where
  | dict (kv : List (String × String))
  | pos (v : String)
  | tuple (vs : List String)
deriving DecidableEq, Repr

/-- One entry of the global `tool_recorder['tool_calls']` list. -/
structure InvocationRecord where
  tool : String
  input : ToolInput
  output : String
  status : String
deriving DecidableEq, Repr

/-- Outcome of the wrapped tool body: a returned string or a raised
exception carrying its message. -/
inductive RunOutcome where
  | ok (result : String)
  | exn (e : String)
deriving DecidableEq, Repr

/-- Embedding of `record_tool_call` in `langchain_agent.py`: appends one
record to the global recorder list.  The status field in the source is the
literal string for a completed call, on every path. -/
def record_tool_call (recorder : List InvocationRecord) (tool_name : String)
    (tool_input : ToolInput) (tool_output : String) : List InvocationRecord :=
  recorder ++ [{ tool := tool_name, input := tool_input,
                 output := tool_output, status := "completed" }]

/-- Embedding of `RecordableTool._run`: capture the input, delegate to the
original body (its outcome is the `original` argument), record once on
either outcome, and re-raise a raised exception.  Returns the new recorder
list together with what the call does next (return or raise). -/
def RecordableTool_run (tool : String) (args : List String)
    (kwargs : List (String × String)) (original : RunOutcome)
    (recorder : List InvocationRecord) : List InvocationRecord × RunOutcome :=
  let tool_input : ToolInput :=
    if kwargs ≠ [] then .dict kwargs
    else match args with
      | a :: _ => .pos a
      | [] => .dict []
  match original with
  | .ok r => (record_tool_call recorder tool tool_input r, .ok r)
  | .exn e =>
      let error_msg := "❌ 工具执行错误: " ++ e
      let fail_input : ToolInput := if kwargs ≠ [] then .dict kwargs else .tuple args
      (record_tool_call recorder tool fail_input error_msg, .exn e)

/-- One turn's sequence of wrapped tool calls: each element is the tool
name, positional arguments, keyword arguments and the outcome of the
wrapped body; the recorder threads through left to right. -/
def runToolSeq
    (calls : List (String × List String × List (String × String) × RunOutcome))
    (recorder : List InvocationRecord) : List InvocationRecord :=
  calls.foldl (fun rec c => (RecordableTool_run c.1 c.2.1 c.2.2.1 c.2.2.2 rec).1) recorder

/-- One model entry of the persisted catalog (`config.json` schema). -/
structure ModelConfig where
  name : String
  type : String
  description : String
  file : String
  task : String
  input_size : List Nat
  confidence_threshold : ℚ
  iou_threshold : ℚ
deriving DecidableEq, Repr

/-- The `settings` block of the persisted catalog. -/
structure Settings where
  default_model : String
  auto_download : Bool
  cache_dir : String
deriving DecidableEq, Repr

/-- The whole persisted catalog (`models` mapping plus `settings`). -/
structure ModelsConfig where
  models : List (String × ModelConfig)
  settings : Settings
deriving DecidableEq, Repr

/-- Filesystem state visible to the manager.  `configFile` is the catalog
file: absent, or present but unparseable, or present with a parsed catalog.
`files` maps a model-artifact path to its byte size.  `canWrite` tells
whether a write of the catalog file succeeds (the source wraps the write in
a try block and logs on failure). -/
structure FS where
  configFile : Option (Option ModelsConfig)
  files : List (String × Nat)
  canWrite : Bool
deriving DecidableEq, Repr

/-- Availability classification of one model, as built by `_scan_models`:
the config, the resolved artifact path, the size (absent for a missing
file, since the source only sets the key in the available branch) and the
status string. -/
structure AvailInfo where
  config : ModelConfig
  file_path : String
  file_size : Option Nat
  status : String
deriving DecidableEq, Repr

/-- In-memory state of `ModelConfigManager`: the models directory, the
parsed catalog and the availability map from the last scan. -/
structure MCM where
  models_dir : String
  models_config : ModelsConfig
  available_models : List (String × AvailInfo)
deriving DecidableEq, Repr

/-- Embedding of `_save_config`: write the catalog file; a failed write is
caught and logged, leaving the filesystem unchanged and raising nothing. -/
def save_config (fs : FS) (cfg : ModelsConfig) : FS :=
  if fs.canWrite then { fs with configFile := some (some cfg) } else fs

/-- The built-in default catalog created by `_create_default_config`. -/
def default_config : ModelsConfig :=
  { models :=
      [ ("yolov8n",
         { name := "YOLOv8 Nano", type := "yolov8",
           description := "YOLOv8 轻量级目标检测模型", file := "yolov8n.pt",
           task := "detection", input_size := [640, 640],
           confidence_threshold := 1/2, iou_threshold := 45/100 }),
        ("yolov8s",
         { name := "YOLOv8 Small", type := "yolov8",
           description := "YOLOv8 小型目标检测模型", file := "yolov8s.pt",
           task := "detection", input_size := [640, 640],
           confidence_threshold := 1/2, iou_threshold := 45/100 }),
        ("yolov8m",
         { name := "YOLOv8 Medium", type := "yolov8",
           description := "YOLOv8 中型目标检测模型", file := "yolov8m.pt",
           task := "detection", input_size := [640, 640],
           confidence_threshold := 1/2, iou_threshold := 45/100 }),
        ("yolov8l",
         { name := "YOLOv8 Large", type := "yolov8",
           description := "YOLOv8 大型目标检测模型", file := "yolov8l.pt",
           task := "detection", input_size := [640, 640],
           confidence_threshold := 1/2, iou_threshold := 45/100 }),
        ("yolov8x",
         { name := "YOLOv8 XLarge", type := "yolov8",
           description := "YOLOv8 超大型目标检测模型", file := "yolov8x.pt",
           task := "detection", input_size := [640, 640],
           confidence_threshold := 1/2, iou_threshold := 45/100 }) ],
    settings :=
      { default_model := "yolov8n", auto_download := true,
        cache_dir := "models/cache" } }

/-- Embedding of `_create_default_config`: install the default catalog in
memory and attempt to persist it. -/
def create_default_config (st : MCM) (fs : FS) : MCM × FS :=
  ({ st with models_config := default_config }, save_config fs default_config)

/-- Embedding of `_load_config`: read the catalog file when it exists and
parses; on a missing file, or on a read failure (the except branch), fall
back to creating the default catalog. -/
def load_config (st : MCM) (fs : FS) : MCM × FS :=
  match fs.configFile with
  | some (some cfg) => ({ st with models_config := cfg }, fs)
  | some none => create_default_config st fs
  | none => create_default_config st fs

/-- Embedding of `_scan_models` as a pure classification: one entry per
catalog model, available with its size when the artifact file exists under
the models directory, else missing. -/
def scan_models (models_dir : String) (fs : FS) (cfg : ModelsConfig) :
    List (String × AvailInfo) :=
  cfg.models.map (fun p =>
    let path := models_dir ++ "/" ++ p.2.file
    match fs.files.lookup path with
    | some sz => (p.1, { config := p.2, file_path := path,
                         file_size := some sz, status := "available" })
    | none => (p.1, { config := p.2, file_path := path,
                      file_size := none, status := "missing" }))

/-- Running `_scan_models` on a manager state replaces the availability map
and touches nothing else. -/
def MCM.scan (st : MCM) (fs : FS) : MCM :=
  { st with available_models := scan_models st.models_dir fs st.models_config }

/-- Python dictionary assignment on an association list with unique keys:
replace in place if the key is present, else append. -/
def assocSet {α : Type} (l : List (String × α)) (k : String) (v : α) :
    List (String × α) :=
  if l.any (fun p => p.1 = k) then l.map (fun p => if p.1 = k then (k, v) else p)
  else l ++ [(k, v)]

/-- Embedding of `add_model`: assign the entry, attempt to persist, rescan,
return True.  (Nothing in the body can raise, so the except branch that
would return False is unreachable.) -/
def add_model (st : MCM) (fs : FS) (model_id : String) (cfg : ModelConfig) :
    MCM × FS × Bool :=
  let mc := { st.models_config with models := assocSet st.models_config.models model_id cfg }
  let fs1 := save_config fs mc
  let st1 := MCM.scan { st with models_config := mc } fs1
  (st1, fs1, true)

/-- Embedding of `remove_model`: delete the entry when present, attempt to
persist, rescan, return True; return False when the id is unknown. -/
def remove_model (st : MCM) (fs : FS) (model_id : String) : MCM × FS × Bool :=
  if st.models_config.models.any (fun p => p.1 = model_id) then
    let mc := { st.models_config with
                models := st.models_config.models.filter (fun p => p.1 ≠ model_id) }
    let fs1 := save_config fs mc
    let st1 := MCM.scan { st with models_config := mc } fs1
    (st1, fs1, true)
  else (st, fs, false)

/-- A partial model config, as passed to `update_model_config`: the Python
call merges a keyword dictionary into the stored entry, so each field is
optional. -/
structure ModelConfigPatch where
  name : Option String := none
  type : Option String := none
  description : Option String := none
  file : Option String := none
  task : Option String := none
  input_size : Option (List Nat) := none
  confidence_threshold : Option ℚ := none
  iou_threshold : Option ℚ := none
deriving DecidableEq, Repr

/-- Python `dict.update`: fields present in the patch replace the stored
ones. -/
def applyPatch (c : ModelConfig) (p : ModelConfigPatch) : ModelConfig :=
  { name := p.name.getD c.name,
    type := p.type.getD c.type,
    description := p.description.getD c.description,
    file := p.file.getD c.file,
    task := p.task.getD c.task,
    input_size := p.input_size.getD c.input_size,
    confidence_threshold := p.confidence_threshold.getD c.confidence_threshold,
    iou_threshold := p.iou_threshold.getD c.iou_threshold }

/-- Embedding of `update_model_config`: merge the patch into the entry when
present, attempt to persist, rescan, return True; return False when the id
is unknown. -/
def update_model_config (st : MCM) (fs : FS) (model_id : String)
    (patch : ModelConfigPatch) : MCM × FS × Bool :=
  if st.models_config.models.any (fun p => p.1 = model_id) then
    let mc := { st.models_config with
                models := st.models_config.models.map
                  (fun p => if p.1 = model_id then (p.1, applyPatch p.2 patch) else p) }
    let fs1 := save_config fs mc
    let st1 := MCM.scan { st with models_config := mc } fs1
    (st1, fs1, true)
  else (st, fs, false)

/-- One entry of the `models` mapping built by `get_models_summary`. -/
structure SummaryEntry where
  name : String
  type : String
  task : String
  status : String
  file_size : Nat
deriving DecidableEq, Repr

/-- The summary dictionary built by `get_models_summary`. -/
structure ModelsSummary where
  total_models : Nat
  available_count : Nat
  missing_count : Nat
  models : List (String × SummaryEntry)
deriving DecidableEq, Repr

/-- The body of the loop in `get_models_summary`: bump the matching
counter and assign the per-model entry, with the size defaulting to zero
when absent and forced to zero for a model that is not available. -/
def summary_step (acc : ModelsSummary) (p : String × AvailInfo) : ModelsSummary :=
  { acc with
    available_count :=
      if p.2.status = "available" then acc.available_count + 1 else acc.available_count,
    missing_count :=
      if p.2.status = "available" then acc.missing_count else acc.missing_count + 1,
    models := assocSet acc.models p.1
      { name := p.2.config.name, type := p.2.config.type, task := p.2.config.task,
        status := p.2.status,
        file_size := if p.2.status = "available" then p.2.file_size.getD 0 else 0 } }

/-- Embedding of `get_models_summary`: fold the loop body over the
availability map, starting from the counters at zero and the total set to
the number of scanned models. -/
def get_models_summary (st : MCM) : ModelsSummary :=
  st.available_models.foldl summary_step
    { total_models := st.available_models.length,
      available_count := 0, missing_count := 0, models := [] }

/-- A loaded inference backend handle, identified by an id. -/
structure Backend where
  bid : String
deriving DecidableEq, Repr

/-- A raised Python exception, with its kind and message. -/
inductive PyExc where
  | fileNotFound (msg : String)
  | runtimeError (msg : String)
deriving DecidableEq, Repr

/-- Python `str(e)`: the exception's message text, whatever its kind. -/
def strExc : PyExc → String
  | .fileNotFound m => m
  | .runtimeError m => m

/-- One raw box of a backend result: pixel corner coordinates, class
index, confidence, optional mask grid. -/
structure RawBox where
  x1 : ℚ
  y1 : ℚ
  x2 : ℚ
  y2 : ℚ
  cls : Nat
  conf : ℚ
  mask : Option (List (List ℚ))
deriving DecidableEq, Repr

/-- One element of the list a YOLO backend returns: the class-name table
and the boxes (which the source guards against being None). -/
structure YoloResult where
  names : List String
  boxes : Option (List RawBox)
deriving DecidableEq, Repr

/-- Round half to even at integer precision, as Python's built-in round
does on an exactly representable value. -/
def pyRoundInt (q : ℚ) : ℤ :=
  let n := ⌊q⌋
  let f := q - (n : ℚ)
  if f < 1/2 then n
  else if (1 : ℚ)/2 < f then n + 1
  else if n % 2 = 0 then n else n + 1

/-- Python `round(x, 2)`: round to two decimal places. -/
def pyRound2 (q : ℚ) : ℚ := (pyRoundInt (q * 100) : ℚ) / 100

/-- Python `int(x)`: truncation toward zero. -/
def pyInt (q : ℚ) : ℤ := if q < 0 then -⌊-q⌋ else ⌊q⌋

/-- One normalized detection, as the source's `detection_info` dictionary:
the class-name string, the confidence in percent rounded to two decimal
places, the integer bbox, and the optional mask with its pixel area. -/
structure Detection where
  className : String
  confidence : ℚ
  bbox : List ℤ
  mask : Option (List (List ℚ))
  mask_area : Option ℤ
deriving DecidableEq, Repr

/-- The loop body of `detect_objects` normalizing one raw box. -/
def normalizeBox (names : List String) (b : RawBox) : Detection :=
  { className := names.getD b.cls "",
    confidence := pyRound2 (b.conf * 100),
    bbox := [pyInt b.x1, pyInt b.y1, pyInt b.x2, pyInt b.y2],
    mask := b.mask,
    mask_area := b.mask.map (fun m => pyInt ((m.map (fun row => row.sum)).sum)) }

/-- The fixed tier order of `_get_best_yolo_model`. -/
def model_priority : List String :=
  ["yolo_yolov8n", "yolo_yolov8s", "yolo_yolov8m", "yolo_yolov8l", "yolo_yolov8x"]

/-- Embedding of `_get_best_yolo_model`: the first tier key present in the
loaded-model dictionary, else the generic default entry; a pure read of
the dictionary. -/
def getBestYoloModel (models : List (String × Backend)) : Option Backend :=
  match model_priority.findSome? (fun k => models.lookup k) with
  | some b => some b
  | none => models.lookup "object_detection"

/-- The detection-collection loop of `detect_objects`: boxes of every
result, normalized, in order (results whose boxes are None contribute
nothing). -/
def normalizeResults (results : List YoloResult) : List Detection :=
  results.foldl
    (fun acc r =>
      match r.boxes with
      | some bs => acc ++ bs.map (normalizeBox r.names)
      | none => acc) []

/-- The `parameters` sub-dictionary of a successful detection result. -/
structure DetectParams where
  draw_boxes : Bool
  show_confidence : Bool
  mask_threshold : ℚ
deriving DecidableEq, Repr

/-- Result of `detect_objects`: the success dictionary, or the failure
dictionary carrying only an error text. -/
inductive DetectResult where
  | ok (detections : List Detection) (total_objects : Nat) (model_used : String)
      (confidence_threshold : ℚ) (parameters : DetectParams)
      (annotated_image : Option String)
  | err (error : String)
deriving DecidableEq, Repr

/-- Embedding of `LocalModelManager.detect_objects`.  The loaded-model
dictionary, the config lookup, the backend inference and the annotation
renderer are the call's environment: inference may raise (the except
branch turns any raise into the failure dictionary), and the renderer
never raises — `_draw_detections` catches internally and returns None. -/
def detect_objects (models : List (String × Backend))
    (getConfig : String → Option ModelConfig)
    (infer : Backend → String → ℚ → Except PyExc (List YoloResult))
    (draw : String → List Detection → Bool → Option String)
    (image_path : String) (confidence : ℚ) (model_id : Option String)
    (draw_boxes : Bool) (show_confidence : Bool) (save_annotated : Bool)
    (mask_threshold : ℚ) : DetectResult :=
  let resolved : Except String Backend :=
    match model_id with
    | some mid =>
        match models.lookup ("yolo_" ++ mid) with
        | some b => .ok b
        | none => .error ("指定的模型 " ++ mid ++ " 未加载")
    | none =>
        match getBestYoloModel models with
        | some b => .ok b
        | none => .error "目标检测模型未加载"
  match resolved with
  | .error msg => .err msg
  | .ok b =>
      match infer b image_path confidence with
      | .error e => .err (strExc e)
      | .ok results =>
          let detections := normalizeResults results
          let annotated_image_path : Option String :=
            if draw_boxes || save_annotated then draw image_path detections show_confidence
            else none
          let model_name :=
            match model_id with
            | some mid =>
                match getConfig mid with
                | some c => c.name
                | none => "未知模型"
            | none => "未知模型"
          .ok detections detections.length model_name confidence
            ⟨draw_boxes, show_confidence, mask_threshold⟩ annotated_image_path

/-- A filesystem whose catalog file holds the default catalog but whose
writes fail. -/
def fsReadOnly : FS :=
  { configFile := some (some default_config), files := [], canWrite := false }

/-- A manager state over `fsReadOnly` after load and scan. -/
def mcmDefault : MCM :=
  { models_dir := "models", models_config := default_config,
    available_models := scan_models "models" fsReadOnly default_config }

/-- A new model entry used to exercise the catalog mutations. -/
def cfgNew : ModelConfig :=
  { name := "Custom", type := "yolov8", description := "custom model",
    file := "custom.pt", task := "detection", input_size := [640, 640],
    confidence_threshold := 1/2, iou_threshold := 45/100 }

/-- A filesystem with a present but unparseable catalog file. -/
def fsCorrupt : FS := { configFile := some none, files := [], canWrite := true }

/-- A filesystem with no catalog file. -/
def fsEmpty : FS := { configFile := none, files := [], canWrite := true }

/-- The manager state before `_load_config` runs (the source initializes
the catalog to an empty mapping, which the load always replaces). -/
def mcmInit : MCM :=
  { models_dir := "models",
    models_config := { models := [], settings := default_config.settings },
    available_models := [] }

/-- A filesystem where only the nano artifact exists on disk. -/
def fsNano : FS :=
  { configFile := some (some default_config),
    files := [("models/yolov8n.pt", 6534387)], canWrite := true }

/-- The manager state after loading the default catalog and scanning over
`fsNano`. -/
def mcmScanned : MCM :=
  MCM.scan { mcmInit with models_config := default_config } fsNano

/-- A loaded nano backend and a loaded-model dictionary holding only it. -/
def backendNano : Backend := { bid := "yolov8n" }

/-- The loaded-model dictionary with only the nano tier present. -/
def modelsNano : List (String × Backend) := [("yolo_yolov8n", backendNano)]

/-- A config lookup that knows no model. -/
def noConfig : String → Option ModelConfig := fun _ => none

/-- An annotation renderer whose rendering always fails (returns None). -/
def noDraw : String → List Detection → Bool → Option String := fun _ _ _ => none

/-- A backend raise caused by a source image missing from disk. -/
def inferRaisesMissing : Backend → String → ℚ → Except PyExc (List YoloResult) :=
  fun _ _ _ => .error (.fileNotFound "boom")

/-- A backend raise caused by a runtime failure, with the same message
text. -/
def inferRaisesRuntime : Backend → String → ℚ → Except PyExc (List YoloResult) :=
  fun _ _ _ => .error (.runtimeError "boom")

/-- The spec's worked example of a raw detection: bbox
(10.2, 5.9, 100.4, 80.1) with confidence 0.8675. -/
def rawBoxEx : RawBox :=
  { x1 := 51/5, y1 := 59/10, x2 := 502/5, y2 := 801/10,
    cls := 0, conf := 8675/10000, mask := none }

/-- A backend returning exactly one raw box. -/
def inferOneBox : Backend → String → ℚ → Except PyExc (List YoloResult) :=
  fun _ _ _ => .ok [{ names := ["person"], boxes := some [rawBoxEx] }]

theorem runToolSeq_length
    (calls : List (String × List String × List (String × String) × RunOutcome))
    (recorder : List InvocationRecord) :
    (runToolSeq calls recorder).length = recorder.length + calls.length := by
  induction calls generalizing recorder with
  | nil => simp [runToolSeq]
  | cons c cs ih =>
      have h1 : ∀ r, (RecordableTool_run c.1 c.2.1 c.2.2.1 c.2.2.2 r).1.length
          = r.length + 1 := by
        intro r
        cases h : c.2.2.2 <;> simp [RecordableTool_run, record_tool_call, h]
      calc (runToolSeq (c :: cs) recorder).length
          = (runToolSeq cs (RecordableTool_run c.1 c.2.1 c.2.2.1 c.2.2.2 recorder).1).length := by
            simp [runToolSeq]
        _ = (RecordableTool_run c.1 c.2.1 c.2.2.1 c.2.2.2 recorder).1.length + cs.length := ih _
        _ = recorder.length + 1 + cs.length := by rw [h1]
        _ = recorder.length + (cs.length + 1) := by omega
        _ = recorder.length + (c :: cs).length := by simp

/-- C1 (counterexample).  A wrapped call whose body raises appends a record
whose status field is the completed-status string, not a failed status:
`record_tool_call` hard-codes the status on every path, including the
exception branch of `RecordableTool._run`. -/
theorem C1_status_counterexample :
    (RecordableTool_run "t" [] [("k", "v")] (.exn "boom") []).1.map InvocationRecord.status
      = ["completed"]
    ∧ ¬ ((RecordableTool_run "t" [] [("k", "v")] (.exn "boom") []).1.map InvocationRecord.status
      = ["failed"]) := by
  constructor
  · rfl
  · decide

/-- C1 (amended).  Every wrapped execution appends exactly one record
whether the body returns or raises, a raise is re-raised to the caller, a
raised failure is visible in the record's output text (the error message),
and a whole turn of N calls yields exactly N records — but the status field
of every appended record is the completed-status string even on a raise. -/
theorem C1_one_record_per_call (tool : String) (args : List String)
    (kwargs : List (String × String)) (o : RunOutcome)
    (recorder : List InvocationRecord) :
    (RecordableTool_run tool args kwargs o recorder).1.length = recorder.length + 1
    ∧ (RecordableTool_run tool args kwargs o recorder).2 = o
    ∧ ((RecordableTool_run tool args kwargs o recorder).1.getLast?.map InvocationRecord.status
        = some "completed")
    ∧ (∀ r, o = .ok r →
        ((RecordableTool_run tool args kwargs o recorder).1.getLast?.map InvocationRecord.output
          = some r))
    ∧ (∀ e, o = .exn e →
        ((RecordableTool_run tool args kwargs o recorder).1.getLast?.map InvocationRecord.output
          = some ("❌ 工具执行错误: " ++ e)))
    ∧ (∀ calls, (runToolSeq calls []).length = calls.length) := by
  refine ⟨?_, ?_, ?_, ?_, ?_, ?_⟩
  · cases o <;> simp [RecordableTool_run, record_tool_call]
  · cases o <;> simp [RecordableTool_run, record_tool_call]
  · cases o <;> simp [RecordableTool_run, record_tool_call]
  · intro r hr; subst hr; simp [RecordableTool_run, record_tool_call]
  · intro e he; subst he; simp [RecordableTool_run, record_tool_call]
  · intro calls; simpa using runToolSeq_length calls []

/-- Witness for C1: the amended theorem evaluated at one concrete returning
call and one concrete raising call. -/
theorem C1_one_record_per_call_witness :
    (RecordableTool_run "t" ["a"] [] (.ok "done") []).1.length = 1
    ∧ ((RecordableTool_run "t" [] [("k", "v")] (.exn "boom") []).1.getLast?.map
        InvocationRecord.output = some ("❌ 工具执行错误: " ++ "boom")) := by
  exact ⟨(C1_one_record_per_call "t" ["a"] [] (.ok "done") []).1,
    (C1_one_record_per_call "t" [] [("k", "v")] (.exn "boom") []).2.2.2.2.1 "boom" rfl⟩

/-- C2 (counterexample).  On a filesystem whose write fails, `add_model`
still returns True, the filesystem keeps its old catalog file (nothing was
persisted and no error is signalled — `_save_config` swallows the failure),
and the in-memory catalog keeps the mutation instead of rolling back. -/
theorem C2_persist_counterexample :
    (add_model mcmDefault fsReadOnly "custom" cfgNew).2.2 = true
    ∧ (add_model mcmDefault fsReadOnly "custom" cfgNew).2.1 = fsReadOnly
    ∧ (add_model mcmDefault fsReadOnly "custom" cfgNew).1.models_config.models.lookup "custom"
        = some cfgNew
    ∧ (add_model mcmDefault fsReadOnly "custom" cfgNew).2.1.configFile
        = some (some default_config)
    ∧ (add_model mcmDefault fsReadOnly "custom" cfgNew).1.models_config.models.length = 6
    ∧ default_config.models.length = 5 := by
  exact ⟨rfl, rfl, rfl, rfl, rfl, rfl⟩

/-- C2 (amended).  Every catalog mutation attempts to persist the full
catalog and then returns True; when the write fails the failure is
swallowed: the filesystem is left unchanged, no error of any kind is
signalled, and the in-memory catalog keeps the mutated state (there is no
rollback). -/
theorem C2_mutations_swallow_persist_failure (st : MCM) (fs : FS) (mid : String)
    (c : ModelConfig) (patch : ModelConfigPatch)
    (hp : st.models_config.models.any (fun p => p.1 = mid) = true)
    (hw : fs.canWrite = false) :
    (add_model st fs mid c).2.2 = true
    ∧ (add_model st fs mid c).2.1 = fs
    ∧ (add_model st fs mid c).1.models_config.models = assocSet st.models_config.models mid c
    ∧ (remove_model st fs mid).2.2 = true
    ∧ (remove_model st fs mid).2.1 = fs
    ∧ (remove_model st fs mid).1.models_config.models
        = st.models_config.models.filter (fun p => p.1 ≠ mid)
    ∧ (update_model_config st fs mid patch).2.2 = true
    ∧ (update_model_config st fs mid patch).2.1 = fs := by
  refine ⟨rfl, ?_, rfl, ?_, ?_, ?_, ?_, ?_⟩
  · simp [add_model, save_config, hw]
  · simp [remove_model, hp]
  · simp [remove_model, save_config, hp, hw]
  · simp [remove_model, MCM.scan, hp]
  · simp [update_model_config, hp]
  · simp [update_model_config, save_config, hp, hw]

/-- Witness for C2: the amended theorem at the read-only filesystem and the
default catalog, mutating the nano entry. -/
theorem C2_mutations_swallow_persist_failure_witness :
    (add_model mcmDefault fsReadOnly "yolov8n" cfgNew).2.2 = true
    ∧ (remove_model mcmDefault fsReadOnly "yolov8n").2.1 = fsReadOnly := by
  have h := C2_mutations_swallow_persist_failure mcmDefault fsReadOnly "yolov8n" cfgNew
    {} (by decide) rfl
  exact ⟨h.1, h.2.2.2.2.1⟩

/-- C8 (counterexample).  A catalog file that exists but cannot be parsed
is overwritten: `_load_config` lands in the except branch, which creates
the default catalog and persists it over the existing file. -/
theorem C8_overwrite_counterexample :
    fsCorrupt.configFile = some none
    ∧ fsCorrupt.configFile ≠ none
    ∧ (load_config mcmInit fsCorrupt).1.models_config = default_config
    ∧ (load_config mcmInit fsCorrupt).2.configFile = some (some default_config)
    ∧ (load_config mcmInit fsCorrupt).2.configFile ≠ fsCorrupt.configFile := by
  refine ⟨rfl, by decide, rfl, rfl, by decide⟩

/-- C8 (amended).  When the catalog file is absent, `load()` installs the
built-in default catalog in memory and writes it to disk; when the file
exists and parses, that catalog is read and the filesystem is untouched;
when the file exists but cannot be read, the default catalog replaces it
(overwriting the existing file); and the bootstrap is idempotent: a second
load after any first load changes neither memory nor disk. -/
theorem C8_load_bootstrap (st : MCM) (fs : FS) (hw : fs.canWrite = true) :
    (fs.configFile = none →
      (load_config st fs).1.models_config = default_config
      ∧ (load_config st fs).2.configFile = some (some default_config))
    ∧ (∀ cfg, fs.configFile = some (some cfg) →
      (load_config st fs).1.models_config = cfg ∧ (load_config st fs).2 = fs)
    ∧ (fs.configFile = some none →
      (load_config st fs).1.models_config = default_config
      ∧ (load_config st fs).2.configFile = some (some default_config))
    ∧ load_config (load_config st fs).1 (load_config st fs).2
        = ((load_config st fs).1, (load_config st fs).2) := by
  refine ⟨?_, ?_, ?_, ?_⟩
  · intro h; simp [load_config, h, create_default_config, save_config, hw]
  · intro cfg h; simp [load_config, h]
  · intro h; simp [load_config, h, create_default_config, save_config, hw]
  · match h : fs.configFile with
    | some (some cfg) => simp [load_config, h]
    | some none => simp [load_config, h, create_default_config, save_config, hw]
    | none => simp [load_config, h, create_default_config, save_config, hw]

/-- Witness for C8: the amended theorem at a filesystem with no catalog
file and at one with the default catalog persisted. -/
theorem C8_load_bootstrap_witness :
    (load_config mcmInit fsEmpty).1.models_config = default_config
    ∧ (load_config mcmInit fsEmpty).2.configFile = some (some default_config)
    ∧ (load_config mcmInit fsNano).2 = fsNano := by
  have h1 := (C8_load_bootstrap mcmInit fsEmpty rfl).1 rfl
  have h2 := ((C8_load_bootstrap mcmInit fsNano rfl).2.1 default_config rfl).2
  exact ⟨h1.1, h1.2, h2⟩

/-- C9.  Scanning is read-only on the manager state apart from the
availability map, and a second scan over an unchanged filesystem
reproduces the classification exactly (same ids, same status, same path
and size). -/
theorem C9_scan_idempotent (st : MCM) (fs : FS) :
    (MCM.scan (MCM.scan st fs) fs).available_models = (MCM.scan st fs).available_models
    ∧ (MCM.scan st fs).models_config = st.models_config
    ∧ (MCM.scan st fs).models_dir = st.models_dir := by
  refine ⟨rfl, rfl, rfl⟩

theorem summary_fold_total (l : List (String × AvailInfo)) (acc : ModelsSummary) :
    (l.foldl summary_step acc).total_models = acc.total_models := by
  induction l generalizing acc with
  | nil => rfl
  | cons a t ih => rw [List.foldl_cons, ih]; rfl

theorem summary_fold_counts (l : List (String × AvailInfo)) (acc : ModelsSummary) :
    (l.foldl summary_step acc).available_count + (l.foldl summary_step acc).missing_count
      = acc.available_count + acc.missing_count + l.length := by
  induction l generalizing acc with
  | nil => simp
  | cons a t ih =>
      rw [List.foldl_cons, ih]
      by_cases h : a.2.status = "available" <;> simp [summary_step, h] <;> omega

theorem assocSet_fresh {α : Type} (l : List (String × α)) (k : String) (v : α)
    (h : ∀ q ∈ l, q.1 ≠ k) : assocSet l k v = l ++ [(k, v)] := by
  have hany : l.any (fun p => p.1 = k) = false := by
    simp only [List.any_eq_false, decide_eq_true_eq]
    exact h
  simp [assocSet, hany]

theorem mem_assocSet {α : Type} {l : List (String × α)} {k : String} {v : α}
    {q : String × α} (hq : q ∈ assocSet l k v) : q ∈ l ∨ q = (k, v) := by
  unfold assocSet at hq
  split at hq
  · rcases List.mem_map.mp hq with ⟨p, hp, hpq⟩
    by_cases hpk : p.1 = k
    · right; rw [← hpq, if_pos hpk]
    · left; rw [← hpq, if_neg hpk]; exact hp
  · rcases List.mem_append.mp hq with h1 | h2
    · left; exact h1
    · right; simpa using h2

theorem summary_fold_models_length (l : List (String × AvailInfo)) (acc : ModelsSummary)
    (hnd : (l.map Prod.fst).Nodup)
    (hfresh : ∀ p ∈ l, ∀ q ∈ acc.models, q.1 ≠ p.1) :
    (l.foldl summary_step acc).models.length = acc.models.length + l.length := by
  induction l generalizing acc with
  | nil => simp
  | cons a t ih =>
      have hk : ∀ q ∈ acc.models, q.1 ≠ a.1 := fun q hq => hfresh a (by simp) q hq
      have hset : (summary_step acc a).models
          = acc.models ++ [(a.1,
              { name := a.2.config.name, type := a.2.config.type, task := a.2.config.task,
                status := a.2.status,
                file_size := if a.2.status = "available" then a.2.file_size.getD 0 else 0 })] :=
        assocSet_fresh _ _ _ hk
      have hax : a.1 ∉ t.map Prod.fst := (List.nodup_cons.mp (by simpa using hnd)).1
      have hnd' : (t.map Prod.fst).Nodup := (List.nodup_cons.mp (by simpa using hnd)).2
      have hfresh' : ∀ p ∈ t, ∀ q ∈ (summary_step acc a).models, q.1 ≠ p.1 := by
        intro p hp q hq
        rw [hset] at hq
        rcases List.mem_append.mp hq with h1 | h2
        · exact hfresh p (List.mem_cons_of_mem _ hp) q h1
        · have hq2 : q.1 = a.1 := by
            have := List.mem_singleton.mp h2
            rw [this]
          rw [hq2]
          intro hcontra
          exact hax (hcontra ▸ List.mem_map_of_mem Prod.fst hp)
      rw [List.foldl_cons, ih (summary_step acc a) hnd' hfresh', hset]
      simp
      omega

theorem summary_fold_missing_zero (l : List (String × AvailInfo)) (acc : ModelsSummary)
    (hacc : ∀ q ∈ acc.models, q.2.status ≠ "available" → q.2.file_size = 0) :
    ∀ q ∈ (l.foldl summary_step acc).models, q.2.status ≠ "available" → q.2.file_size = 0 := by
  induction l generalizing acc with
  | nil => simpa using hacc
  | cons a t ih =>
      rw [List.foldl_cons]
      apply ih
      intro q hq hst
      rcases mem_assocSet hq with h1 | h2
      · exact hacc q h1 hst
      · rw [h2]
        rw [h2] at hst
        simp only at hst ⊢
        rw [if_neg hst]

/-- C10.  In every summary whose availability map has unique model ids (as
a Python dictionary guarantees), the available and missing counters sum to
the total, the total equals the number of per-model entries, and a
non-available model's entry reports a file size of zero. -/
theorem C10_summary_invariants (st : MCM)
    (hnd : (st.available_models.map Prod.fst).Nodup) :
    (get_models_summary st).available_count + (get_models_summary st).missing_count
        = (get_models_summary st).total_models
    ∧ (get_models_summary st).total_models = (get_models_summary st).models.length
    ∧ (∀ q ∈ (get_models_summary st).models, q.2.status ≠ "available" → q.2.file_size = 0) := by
  refine ⟨?_, ?_, ?_⟩
  · rw [get_models_summary, summary_fold_counts, summary_fold_total]
    simp
  · rw [get_models_summary, summary_fold_total,
      summary_fold_models_length st.available_models _ hnd (by intro p _ q hq; cases hq)]
    simp
  · exact summary_fold_missing_zero st.available_models _ (by intro q hq; cases hq)

/-- Witness for C10: the summary over the default catalog scanned against
a filesystem holding only the nano artifact, with the counters also
evaluated concretely. -/
theorem C10_summary_invariants_witness :
    (get_models_summary mcmScanned).available_count = 1
    ∧ (get_models_summary mcmScanned).missing_count = 4
    ∧ (get_models_summary mcmScanned).total_models = 5
    ∧ (get_models_summary mcmScanned).available_count
        + (get_models_summary mcmScanned).missing_count
        = (get_models_summary mcmScanned).total_models
    ∧ (get_models_summary mcmScanned).total_models
        = (get_models_summary mcmScanned).models.length := by
  have h := C10_summary_invariants mcmScanned (by decide)
  exact ⟨rfl, rfl, rfl, h.1, h.2.1⟩

/-- C3.  Each normalized detection reports the raw confidence multiplied
by 100 and rounded to two decimal places, and — pixel coordinates being
nonnegative — each reported bbox coordinate is the floor of the raw value
(Python int() truncates toward zero, which equals the floor on
nonnegative values). -/
theorem C3_normalization (names : List String) (b : RawBox)
    (h1 : 0 ≤ b.x1) (h2 : 0 ≤ b.y1) (h3 : 0 ≤ b.x2) (h4 : 0 ≤ b.y2) :
    (normalizeBox names b).confidence = pyRound2 (b.conf * 100)
    ∧ (normalizeBox names b).bbox = [⌊b.x1⌋, ⌊b.y1⌋, ⌊b.x2⌋, ⌊b.y2⌋] := by
  refine ⟨rfl, ?_⟩
  simp [normalizeBox, pyInt, not_lt.mpr h1, not_lt.mpr h2, not_lt.mpr h3, not_lt.mpr h4]

/-- Witness for C3: the spec's worked example — raw confidence 0.8675
renders as 86.75 and raw bbox (10.2, 5.9, 100.4, 80.1) renders as
[10, 5, 100, 80]. -/
theorem C3_normalization_witness :
    (normalizeBox ["person"] rawBoxEx).confidence = 8675/100
    ∧ (normalizeBox ["person"] rawBoxEx).bbox = [10, 5, 100, 80] := by
  have h := C3_normalization ["person"] rawBoxEx (by norm_num [rawBoxEx])
    (by norm_num [rawBoxEx]) (by norm_num [rawBoxEx]) (by norm_num [rawBoxEx])
  refine ⟨?_, ?_⟩
  · rw [h.1]; norm_num [rawBoxEx, pyRound2, pyRoundInt]
  · rw [h.2]; norm_num [rawBoxEx]

/-- C4.  An explicit model id whose backend is not in the loaded-model
dictionary fails with the dedicated unloaded-model error naming that id;
the result does not depend on the inference function, so no fallback
backend is ever run. -/
theorem C4_explicit_id_no_fallback (models : List (String × Backend))
    (getConfig : String → Option ModelConfig)
    (infer : Backend → String → ℚ → Except PyExc (List YoloResult))
    (draw : String → List Detection → Bool → Option String)
    (image_path : String) (confidence : ℚ) (mid : String)
    (db sc sa : Bool) (mt : ℚ)
    (h : models.lookup ("yolo_" ++ mid) = none) :
    detect_objects models getConfig infer draw image_path confidence (some mid) db sc sa mt
      = .err ("指定的模型 " ++ mid ++ " 未加载") := by
  simp [detect_objects, h]

/-- Witness for C4: with only the nano backend loaded, an explicit request
for the small model fails naming it, and never runs the loaded backend. -/
theorem C4_explicit_id_no_fallback_witness :
    detect_objects modelsNano noConfig inferOneBox noDraw "img.jpg" (1/2) (some "yolov8s")
        false true false (1/2)
      = .err ("指定的模型 " ++ "yolov8s" ++ " 未加载") :=
  C4_explicit_id_no_fallback modelsNano noConfig inferOneBox noDraw "img.jpg" (1/2)
    "yolov8s" false true false (1/2) rfl

/-- C5.  With no explicit id, selection is the pure dictionary read
`_get_best_yolo_model`: the first loaded backend in the fixed
nano-small-medium-large-x tier order; with no tiered backend loaded, the
generic default entry; with that absent too, the call fails with the
no-model error.  When a backend is selected, it is the one inference runs
with. -/
theorem C5_fallback_order (models : List (String × Backend))
    (getConfig : String → Option ModelConfig)
    (infer : Backend → String → ℚ → Except PyExc (List YoloResult))
    (draw : String → List Detection → Bool → Option String)
    (image_path : String) (confidence : ℚ) (db sc sa : Bool) (mt : ℚ)
    (i : Nat) (hi : i < 5) (b : Backend) :
    (models.lookup (model_priority.getD i "") = some b →
      (∀ j, j < i → models.lookup (model_priority.getD j "") = none) →
      getBestYoloModel models = some b)
    ∧ ((∀ j, j < 5 → models.lookup (model_priority.getD j "") = none) →
      getBestYoloModel models = models.lookup "object_detection")
    ∧ ((∀ j, j < 5 → models.lookup (model_priority.getD j "") = none) →
      models.lookup "object_detection" = none →
      detect_objects models getConfig infer draw image_path confidence none db sc sa mt
        = .err "目标检测模型未加载")
    ∧ (getBestYoloModel models = some b →
      ∀ e, infer b image_path confidence = .error e →
      detect_objects models getConfig infer draw image_path confidence none db sc sa mt
        = .err (strExc e)) := by
  refine ⟨?_, ?_, ?_, ?_⟩
  · intro hb hearlier
    interval_cases i
    · simp only [model_priority, List.getD_cons_zero, List.getD_cons_succ] at hb
      simp [getBestYoloModel, model_priority, List.findSome?_cons, hb]
    · have e0 := hearlier 0 (by norm_num)
      simp only [model_priority, List.getD_cons_zero, List.getD_cons_succ] at hb e0
      simp [getBestYoloModel, model_priority, List.findSome?_cons, hb, e0]
    · have e0 := hearlier 0 (by norm_num); have e1 := hearlier 1 (by norm_num)
      simp only [model_priority, List.getD_cons_zero, List.getD_cons_succ] at hb e0 e1
      simp [getBestYoloModel, model_priority, List.findSome?_cons, hb, e0, e1]
    · have e0 := hearlier 0 (by norm_num); have e1 := hearlier 1 (by norm_num)
      have e2 := hearlier 2 (by norm_num)
      simp only [model_priority, List.getD_cons_zero, List.getD_cons_succ] at hb e0 e1 e2
      simp [getBestYoloModel, model_priority, List.findSome?_cons, hb, e0, e1, e2]
    · have e0 := hearlier 0 (by norm_num); have e1 := hearlier 1 (by norm_num)
      have e2 := hearlier 2 (by norm_num); have e3 := hearlier 3 (by norm_num)
      simp only [model_priority, List.getD_cons_zero, List.getD_cons_succ] at hb e0 e1 e2 e3
      simp [getBestYoloModel, model_priority, List.findSome?_cons, hb, e0, e1, e2, e3]
  · intro hall
    have e0 := hall 0 (by norm_num); have e1 := hall 1 (by norm_num)
    have e2 := hall 2 (by norm_num); have e3 := hall 3 (by norm_num)
    have e4 := hall 4 (by norm_num)
    simp only [model_priority, List.getD_cons_zero, List.getD_cons_succ] at e0 e1 e2 e3 e4
    simp [getBestYoloModel, model_priority, List.findSome?_cons, e0, e1, e2, e3, e4]
  · intro hall hod
    have e0 := hall 0 (by norm_num); have e1 := hall 1 (by norm_num)
    have e2 := hall 2 (by norm_num); have e3 := hall 3 (by norm_num)
    have e4 := hall 4 (by norm_num)
    simp only [model_priority, List.getD_cons_zero, List.getD_cons_succ] at e0 e1 e2 e3 e4
    simp [detect_objects, getBestYoloModel, model_priority, List.findSome?_cons, e0, e1, e2, e3, e4, hod]
  · intro hbest e he
    simp [detect_objects, hbest, he]

/-- Witness for C5: with only the nano backend loaded, the selected
backend is the nano backend (tier index 0), and a backend raise surfaces
as the generic failure of the call that ran that backend. -/
theorem C5_fallback_order_witness :
    getBestYoloModel modelsNano = some backendNano
    ∧ detect_objects modelsNano noConfig inferRaisesRuntime noDraw "img.jpg" (1/2) none
        false true false (1/2) = .err "boom" := by
  have h := C5_fallback_order modelsNano noConfig inferRaisesRuntime noDraw "img.jpg" (1/2)
    false true false (1/2) 0 (by norm_num) backendNano
  have hsel : getBestYoloModel modelsNano = some backendNano :=
    h.1 rfl (fun j hj => absurd hj (Nat.not_lt_zero j))
  exact ⟨hsel, h.2.2.2 hsel (.runtimeError "boom") rfl⟩

/-- C6 (counterexample).  The failure result for a source image missing
from disk is the very same value as the failure result for a backend
runtime error with the same exception text: `detect_objects` never checks
the path itself and routes every raise through the one generic failure
branch, so the result carries no distinct image-not-found
classification. -/
theorem C6_no_distinct_error_counterexample :
    detect_objects modelsNano noConfig inferRaisesMissing noDraw "missing.jpg" (1/2) none
        false true false (1/2)
      = detect_objects modelsNano noConfig inferRaisesRuntime noDraw "missing.jpg" (1/2) none
        false true false (1/2)
    ∧ detect_objects modelsNano noConfig inferRaisesMissing noDraw "missing.jpg" (1/2) none
        false true false (1/2) = .err "boom" :=
  ⟨rfl, rfl⟩

/-- C6 (amended).  When the source path does not exist the backend raises;
`detect_objects` catches the raise and returns the generic unsuccessful
result carrying the exception's text — the same failure shape used for any
inference error — and no partial detection result. -/
theorem C6_missing_image_generic_failure (models : List (String × Backend))
    (getConfig : String → Option ModelConfig)
    (infer : Backend → String → ℚ → Except PyExc (List YoloResult))
    (draw : String → List Detection → Bool → Option String)
    (image_path : String) (confidence : ℚ) (db sc sa : Bool) (mt : ℚ)
    (b : Backend) (e : PyExc)
    (hres : getBestYoloModel models = some b)
    (hraise : infer b image_path confidence = .error e) :
    detect_objects models getConfig infer draw image_path confidence none db sc sa mt
      = .err (strExc e) := by
  simp [detect_objects, hres, hraise]

/-- Witness for C6: the amended theorem at the nano-only registry with a
backend raise caused by the missing file. -/
theorem C6_missing_image_generic_failure_witness :
    detect_objects modelsNano noConfig inferRaisesMissing noDraw "missing.jpg" (1/2) none
        false true false (1/2) = .err "boom" :=
  C6_missing_image_generic_failure modelsNano noConfig inferRaisesMissing noDraw
    "missing.jpg" (1/2) false true false (1/2) backendNano (.fileNotFound "boom") rfl rfl

/-- C7.  When the annotation renderer fails (returns None), the call still
returns the successful result with the full normalized detection list, and
the annotated-image entry is simply absent. -/
theorem C7_annotation_failure_nonfatal (models : List (String × Backend))
    (getConfig : String → Option ModelConfig)
    (infer : Backend → String → ℚ → Except PyExc (List YoloResult))
    (draw : String → List Detection → Bool → Option String)
    (image_path : String) (confidence : ℚ) (db sc sa : Bool) (mt : ℚ)
    (b : Backend) (results : List YoloResult)
    (hres : getBestYoloModel models = some b)
    (hok : infer b image_path confidence = .ok results)
    (hdraw : draw image_path (normalizeResults results) sc = none) :
    detect_objects models getConfig infer draw image_path confidence none db sc sa mt
      = .ok (normalizeResults results) (normalizeResults results).length
          "未知模型" confidence ⟨db, sc, mt⟩ none := by
  simp only [detect_objects, hres, hok]
  cases db <;> cases sa <;> simp [hdraw]

/-- Witness for C7: a one-box inference with a failing renderer and box
drawing requested still succeeds, with the detection kept and no annotated
image. -/
theorem C7_annotation_failure_nonfatal_witness :
    detect_objects modelsNano noConfig inferOneBox noDraw "img.jpg" (1/2) none
        true true false (1/2)
      = .ok (normalizeResults [{ names := ["person"], boxes := some [rawBoxEx] }])
          (normalizeResults [{ names := ["person"], boxes := some [rawBoxEx] }]).length
          "未知模型" (1/2) ⟨true, true, 1/2⟩ none :=
  C7_annotation_failure_nonfatal modelsNano noConfig inferOneBox noDraw "img.jpg" (1/2)
    true true false (1/2) backendNano [{ names := ["person"], boxes := some [rawBoxEx] }]
    rfl rfl rfl
